import Mathlib

set_option maxRecDepth 10000

namespace PixiSpec

/-!
Shallow embedding of the batched-rendering core of the repository:
`src/app/Application.ts` (application lifecycle shell) and
`src/scene/graphics/gpu/GpuGraphicsAdaptor.ts` (WebGPU graphics adaptor).
Opaque collaborator objects (geometry, programs, matrices, bind groups,
plugins, options objects) are represented by natural-number identities;
every observable call to a collaborator is recorded in an event trace.
-/

/-! ### Binary floating-point rounding model (round to nearest, ties to even)

Nonnegative values are represented as unreduced fractions `(n, d)` meaning
`n / d`; after rounding, `d` is always a power of two, so these are exact
binary floating-point values.  Only kernel-friendly `Nat` primitives are used
so that concrete instances evaluate by `decide`. -/

/-- Round the fraction `a / b` to the nearest integer, ties to even
(IEEE-754 default rounding applied at integer granularity). -/
def rneFrac (a b : Nat) : Nat :=
  let f := a / b
  let r := a % b
  if 2 * r < b then f
  else if b < 2 * r then f + 1
  else if f % 2 = 0 then f
  else f + 1

/-- Round the nonnegative fraction `n / d` to a binary floating-point value
with `bits` significant binary digits (round to nearest, ties to even).  The
scaling exponent is the least `e` with `(n / d) * 2 ^ e ≥ 2 ^ (bits - 1)`,
found by direct search (the values occurring here always need `e < 64`). -/
def flBitsF (bits n d : Nat) : Nat × Nat :=
  if n = 0 then (0, 1)
  else
    let t := (2 ^ (bits - 1) * d + n - 1) / n
    let e := (((List.range 64).find? fun k => decide (t ≤ 2 ^ k)).getD 63)
    (rneFrac (n * 2 ^ e) d, 2 ^ e)

/-- IEEE-754 binary64 rounding (JavaScript number arithmetic). -/
def fl64F (n d : Nat) : Nat × Nat := flBitsF 53 n d

/-- IEEE-754 binary32 rounding (storage into a `Float32Array` slot). -/
def fl32F (n d : Nat) : Nat × Nat := flBitsF 24 n d

/-- Modelled from the spec: one channel of the color-unpack collaborator.
The implementation of `color32BitToUniform` (module `./colorToUniform`) is not
part of the excerpt; per the spec the packed 32-bit color "must be unpacked per
channel into the 4×f32 target": the 8-bit channel value `v` is converted to
`v / 255` (binary64 division as in JavaScript) and stored into the
`Float32Array` uniform target (binary32 rounding). -/
def unpackChannel (v : Nat) : Nat × Nat :=
  let q := fl64F v 255
  fl32F q.1 q.2

/-- Modelled from the spec: the color-unpack collaborator
`color32BitToUniform(color, out, 0)`.  The source of `./colorToUniform` is not
included in the excerpt; per the spec it unpacks the packed 32-bit color value
per 8-bit channel (bytes from least significant upward) into the four `f32`
slots of the uniform target. -/
def color32BitToUniform (c : Nat) : List (Nat × Nat) :=
  [unpackChannel (c % 2 ^ 8),
   unpackChannel (c / 2 ^ 8 % 2 ^ 8),
   unpackChannel (c / 2 ^ 16 % 2 ^ 8),
   unpackChannel (c / 2 ^ 24 % 2 ^ 8)]

/-- Modelled from the spec: repacking one unpacked `f32` channel back to its
8-bit value — multiply by 255 (binary64 product) and round to the nearest
integer. -/
def packChannel (q : Nat × Nat) : Nat :=
  let p := fl64F (q.1 * 255) q.2
  rneFrac p.1 p.2

/-- Modelled from the spec: repacking the four unpacked channels into the
packed 32-bit color value, inverting the byte order of the unpacker. -/
def packColor (chs : List (Nat × Nat)) : Nat :=
  packChannel (chs.getD 0 (0, 1)) + 2 ^ 8 * packChannel (chs.getD 1 (0, 1)) +
    2 ^ 16 * packChannel (chs.getD 2 (0, 1)) + 2 ^ 24 * packChannel (chs.getD 3 (0, 1))

/-! ### GpuGraphicsAdaptor: data model -/

/-- `batch.textures` — an ordered texture set plus its live count. -/
structure TextureBatch where
  textures : List Nat
  count : Nat
deriving DecidableEq, Repr

/-- One `Batch` of the instruction list: a contiguous index-buffer run
`[start, start + size)`, its texture set and the two lazily populated cached
binding-group references (`bindGroup`, `gpuBindGroup`).  Bind groups are
identified by numeric identity so that object identity (not mere equality) is
visible to the theorems. -/
structure Batch where
  start : Nat
  size : Nat
  textures : TextureBatch
  bindGroup : Option Nat
  gpuBindGroup : Option Nat
deriving DecidableEq, Repr

/-- The shared `Shader` of the adaptor: its compiled `gpuProgram`, the local
uniform values (`uTransformMatrix`, `uColor`) and the bind groups at slots 1
and 2 (`shader.groups`). -/
structure Shader where
  gpuProgram : Nat
  uTransformMatrix : Nat
  uColor : List (Nat × Nat)
  groups1 : Option Nat
  groups2 : Option Nat
deriving DecidableEq, Repr

/-- Observable effects of one `execute` call: encoder commands, the
uniform-batch allocator call, and bind-group constructions. -/
inductive Event where
  | setPipeline (geometry program blend : Nat)
  | setGeometry (geometry : Nat)
  | setBindGroup (slot : Nat) (group : Option Nat) (program : Nat)
  | allocUniformBindGroup (id : Nat)
  | constructTextureBindGroup (textures : List Nat) (count : Nat) (id : Nat)
  | constructGpuBindGroup (bindGroup program id : Nat)
  | drawIndexed (indexCount instanceCount firstIndex : Nat)
deriving DecidableEq, Repr

/-- Is this event an indexed draw call? -/
def Event.isDraw : Event → Bool
  | .drawIndexed _ _ _ => true
  | _ => false

/-- Is this event a `setBindGroup` at slot `s`? -/
def Event.isBindSlot (s : Nat) : Event → Bool
  | .setBindGroup s2 _ _ => s2 == s
  | _ => false

/-- Is this event a call to the uniform-batch allocator? -/
def Event.isAllocEvent : Event → Bool
  | .allocUniformBindGroup _ => true
  | _ => false

/-- Is this event a construction of a texture-set binding group? -/
def Event.isConstructTex : Event → Bool
  | .constructTextureBindGroup _ _ _ => true
  | _ => false

/-- The mutable state touched by `GpuGraphicsAdaptor.execute`: the adaptor's
`_shader` reference (`none` after `destroy`), the paint context's optional
`customShader`, the pipe's blend mode, the instruction list's batch array,
and a fresh-identity counter for newly constructed objects. -/
structure AdaptorState where
  shader : Option Shader
  customShader : Option Shader
  blendMode : Nat
  batches : List Batch
  nextId : Nat
deriving DecidableEq, Repr

/-- The per-call read-only inputs of `execute`: the length of
`getGpuContext(context).batches` (used only by the early-out), the render
data's geometry and `instructionSize`, the renderable's layer state, and the
renderer's frame-global uniforms bind group. -/
structure ExecInput where
  gpuBatchesCount : Nat
  geometry : Nat
  instructionSize : Nat
  layerBlendMode : Nat
  layerTransform : Nat
  layerColor : Nat
  globalBindGroup : Nat
deriving DecidableEq, Repr

/-- `context.customShader || this._shader` — the effective shader. -/
def effShader (st : AdaptorState) : Option Shader :=
  match st.customShader with
  | some c => some c
  | none => st.shader

/-- Write back the mutated effective shader to whichever reference it came
from (custom shader if present, else the adaptor's shared shader). -/
def setEffShader (st : AdaptorState) (sh : Shader) : AdaptorState :=
  match st.customShader with
  | some _ => { st with customShader := some sh }
  | none => { st with shader := some sh }

/-- Result of the batch loop: the updated batch array, the fresh-identity
counter, the final value of `shader.groups[1]`, and the emitted events. -/
structure RunResult where
  batches : List Batch
  nextId : Nat
  groups1 : Option Nat
  trace : List Event
deriving DecidableEq, Repr

/-- The `for (let i = 0; i < instructions.instructionSize; i++)` loop of
`execute` (lines 109–128): for each of the first `n` batches, assign
`shader.groups[1] = batch.bindGroup`, construct and cache the texture-set
binding group when `batch.gpuBindGroup` is unset, bind slot 1 to
`batch.bindGroup`, and issue `drawIndexed(batch.size, 1, batch.start)`.
Indexing past the end of the array (a JavaScript `undefined` dereference)
yields `none`. -/
def runBatches (p : Nat) : Nat → List Batch → Nat → Option Nat → Option RunResult
  | 0, bs, nid, g1 => some ⟨bs, nid, g1, []⟩
  | _ + 1, [], _, _ => none
  | n + 1, b :: rest, nid, _ =>
      match b.gpuBindGroup with
      | some _ =>
          match runBatches p n rest nid b.bindGroup with
          | none => none
          | some r =>
              some ⟨b :: r.batches, r.nextId, r.groups1,
                Event.setBindGroup 1 b.bindGroup p ::
                  Event.drawIndexed b.size 1 b.start :: r.trace⟩
      | none =>
          match runBatches p n rest (nid + 2) b.bindGroup with
          | none => none
          | some r =>
              some ⟨{ b with bindGroup := some nid, gpuBindGroup := some (nid + 1) } :: r.batches,
                r.nextId, r.groups1,
                Event.constructTextureBindGroup b.textures.textures b.textures.count nid ::
                  Event.constructGpuBindGroup nid p (nid + 1) ::
                    Event.setBindGroup 1 (some nid) p ::
                      Event.drawIndexed b.size 1 b.start :: r.trace⟩

/-- `GpuGraphicsAdaptor.execute` (lines 58–129).  Early-out when the gpu
context has no batches; otherwise resolve the effective shader (an error —
JavaScript `TypeError` — when both references are null), set the pipe blend
mode, write the layer transform and unpacked layer color into the local
uniforms, set pipeline and geometry, bind the frame-global uniforms at slot 0,
fetch the local-uniform binding from the uniform-batch allocator and bind it
at slot 2, then run the batch loop. -/
def execute (inp : ExecInput) (st : AdaptorState) :
    Except Unit (AdaptorState × List Event) :=
  if inp.gpuBatchesCount = 0 then .ok (st, [])
  else
    match effShader st with
    | none => .error ()
    | some sh =>
        match runBatches sh.gpuProgram inp.instructionSize st.batches
            (st.nextId + 1) sh.groups1 with
        | none => .error ()
        | some r =>
            .ok ({ setEffShader st
                    { sh with
                      uTransformMatrix := inp.layerTransform,
                      uColor := color32BitToUniform inp.layerColor,
                      groups1 := r.groups1 } with
                    blendMode := inp.layerBlendMode,
                    batches := r.batches,
                    nextId := r.nextId },
              Event.setPipeline inp.geometry sh.gpuProgram inp.layerBlendMode ::
                Event.setGeometry inp.geometry ::
                  Event.setBindGroup 0 (some inp.globalBindGroup) sh.gpuProgram ::
                    Event.allocUniformBindGroup st.nextId ::
                      Event.setBindGroup 2 (some st.nextId) sh.gpuProgram :: r.trace)

/-- `GpuGraphicsAdaptor.destroy` (lines 131–135): deep-destroys the shared
shader and nulls the reference.  A second call dereferences null and errors. -/
def destroy (st : AdaptorState) : Except Unit AdaptorState :=
  match st.shader with
  | none => .error ()
  | some _ => .ok { st with shader := none }

/-! ### Application: data model -/

/-- Events observable from the application lifecycle shell.  Each plugin call
records the receiver (`appId`, the `this` binding) it was invoked on. -/
inductive AppEvent where
  | rendererCreate (opts : Nat)
  | pluginInit (plugin appId opts : Nat)
  | pluginDestroy (plugin appId : Nat)
  | stageDestroy (opts : Nat)
  | rendererDestroy (opts : Nat)
deriving DecidableEq, Repr

/-- Is this event a plugin `init` call? -/
def AppEvent.isPluginInit : AppEvent → Bool
  | .pluginInit _ _ _ => true
  | _ => false

/-- Is this event a plugin `destroy` call? -/
def AppEvent.isPluginDestroy : AppEvent → Bool
  | .pluginDestroy _ _ => true
  | _ => false

/-- Application state.  JavaScript arrays are mutable heap objects, so the
static `Application._plugins` list lives in a small heap (`arrays`) addressed
by reference (`pluginsRef`); `slice(0)` allocates a new array and `reverse()`
mutates in place, which is what claim C9 is about.  `stage` and `renderer`
are nullable references, `none` being the cleared/destroyed sentinel. -/
structure AppState where
  arrays : List (List Nat)
  pluginsRef : Nat
  stage : Option Nat
  renderer : Option Nat
  appId : Nat
deriving DecidableEq, Repr

/-- The contents of the static `Application._plugins` registry. -/
def pluginsOf (st : AppState) : List Nat := st.arrays.getD st.pluginsRef []

/-- `options = { ...{}, ...options }` — the merged options object (user
options spread over the empty defaults; `0` stands for the object with no
user-supplied properties). -/
def mergeOptions (o : Option Nat) : Nat := o.getD 0

/-- `Application.init` (lines 70–87): merge the options over the defaults,
construct the renderer via `autoDetectRenderer(options)` (external
collaborator, represented by its options), then call `plugin.init.call(this,
options)` on every registered plugin in registration order. -/
def Application.init (o : Option Nat) (st : AppState) : AppState × List AppEvent :=
  let m := mergeOptions o
  ({ st with renderer := some m },
   AppEvent.rendererCreate m ::
     (pluginsOf st).map fun p => AppEvent.pluginInit p st.appId m)

/-- `Application.destroy` (lines 131–148): copy the static plugin list with
`slice(0)`, reverse the copy in place, call `plugin.destroy.call(this)` on
the reversed copy, then `stage.destroy(options)`, null the stage,
`renderer.destroy(options)`, null the renderer.  Dereferencing an already
nulled stage or renderer is a JavaScript `TypeError`, modelled as an error. -/
def Application.destroy (opts : Nat) (st : AppState) :
    Except Unit (AppState × List AppEvent) :=
  let orig := pluginsOf st
  let arrays2 := (st.arrays ++ [orig]).set st.arrays.length orig.reverse
  match st.stage, st.renderer with
  | some _, some _ =>
      .ok ({ st with arrays := arrays2, stage := none, renderer := none },
        (orig.reverse.map fun p => AppEvent.pluginDestroy p st.appId) ++
          [AppEvent.stageDestroy opts, AppEvent.rendererDestroy opts])
  | _, _ => .error ()

/-! ### Theorems -/

/-- Characterization of the batch loop: it succeeds whenever `n` does not
exceed the array length; its draw events are exactly one per batch in list
order; it never binds slots 0 or 2 and never calls the uniform-batch
allocator; it constructs exactly one texture binding group per batch whose
cache was empty; and a batch whose `gpuBindGroup` cache is populated is left
untouched and gets its cached `bindGroup` bound at slot 1. -/
theorem runBatches_spec (p : Nat) :
    ∀ (n : Nat) (bs : List Batch) (nid : Nat) (g1 : Option Nat), n ≤ bs.length →
    ∃ r : RunResult, runBatches p n bs nid g1 = some r ∧
      r.trace.filter Event.isDraw =
        (bs.take n).map (fun b => Event.drawIndexed b.size 1 b.start) ∧
      r.trace.countP (Event.isBindSlot 0) = 0 ∧
      r.trace.countP (Event.isBindSlot 2) = 0 ∧
      r.trace.countP Event.isAllocEvent = 0 ∧
      r.trace.countP Event.isConstructTex =
        (bs.take n).countP (fun b2 => b2.gpuBindGroup.isNone) ∧
      (∀ i b2, i < n → bs[i]? = some b2 → b2.gpuBindGroup.isSome →
        r.batches[i]? = some b2 ∧
        (r.trace.filter (Event.isBindSlot 1))[i]? =
          some (Event.setBindGroup 1 b2.bindGroup p)) := by
  intro n
  induction n with
  | zero =>
      intro bs nid g1 _
      exact ⟨⟨bs, nid, g1, []⟩, rfl, by simp, by simp, by simp, by simp, by simp,
        fun i b2 hi => absurd hi (Nat.not_lt_zero i)⟩
  | succ n ih =>
      intro bs nid g1 h
      cases bs with
      | nil => simp at h
      | cons b rest =>
          have hr : n ≤ rest.length := by
            simp at h
            omega
          cases hb : b.gpuBindGroup with
          | some g =>
              obtain ⟨r, hrun, hdraw, h0, h2, ha, hct, hidx⟩ := ih rest nid b.bindGroup hr
              refine ⟨⟨b :: r.batches, r.nextId, r.groups1,
                Event.setBindGroup 1 b.bindGroup p ::
                  Event.drawIndexed b.size 1 b.start :: r.trace⟩,
                ?_, ?_, ?_, ?_, ?_, ?_, ?_⟩
              · simp [runBatches, hb, hrun]
              · simp [Event.isDraw, hdraw]
              · simp [Event.isBindSlot, h0]
              · simp [Event.isBindSlot, h2]
              · simp [Event.isAllocEvent, ha]
              · simp [Event.isConstructTex, hct, hb]
              · intro i b2 hi hget hsome
                cases i with
                | zero =>
                    simp at hget
                    subst hget
                    exact ⟨by simp, by simp [Event.isBindSlot]⟩
                | succ i =>
                    simp at hget
                    have hrec := hidx i b2 (by omega) hget hsome
                    exact ⟨by simpa using hrec.1, by simpa [Event.isBindSlot] using hrec.2⟩
          | none =>
              obtain ⟨r, hrun, hdraw, h0, h2, ha, hct, hidx⟩ := ih rest (nid + 2) b.bindGroup hr
              refine ⟨⟨{ b with bindGroup := some nid, gpuBindGroup := some (nid + 1) } ::
                  r.batches, r.nextId, r.groups1,
                Event.constructTextureBindGroup b.textures.textures b.textures.count nid ::
                  Event.constructGpuBindGroup nid p (nid + 1) ::
                    Event.setBindGroup 1 (some nid) p ::
                      Event.drawIndexed b.size 1 b.start :: r.trace⟩,
                ?_, ?_, ?_, ?_, ?_, ?_, ?_⟩
              · simp [runBatches, hb, hrun]
              · simp [Event.isDraw, hdraw]
              · simp [Event.isBindSlot, h0]
              · simp [Event.isBindSlot, h2]
              · simp [Event.isAllocEvent, ha]
              · simp [Event.isConstructTex, hct, hb]
              · intro i b2 hi hget hsome
                cases i with
                | zero =>
                    simp at hget
                    subst hget
                    rw [hb] at hsome
                    simp at hsome
                | succ i =>
                    simp at hget
                    have hrec := hidx i b2 (by omega) hget hsome
                    exact ⟨by simpa using hrec.1, by simpa [Event.isBindSlot] using hrec.2⟩

/-- The reduct of a successful non-empty `execute` call: the mutated state and
the full event trace (fixed prefix followed by the batch-loop events). -/
theorem execute_eq (inp : ExecInput) (st : AdaptorState) (sh : Shader) (r : RunResult)
    (hne : inp.gpuBatchesCount ≠ 0) (hsh : effShader st = some sh)
    (hrun : runBatches sh.gpuProgram inp.instructionSize st.batches
      (st.nextId + 1) sh.groups1 = some r) :
    execute inp st = .ok
      ({ setEffShader st
          { sh with
            uTransformMatrix := inp.layerTransform,
            uColor := color32BitToUniform inp.layerColor,
            groups1 := r.groups1 } with
          blendMode := inp.layerBlendMode,
          batches := r.batches,
          nextId := r.nextId },
        Event.setPipeline inp.geometry sh.gpuProgram inp.layerBlendMode ::
          Event.setGeometry inp.geometry ::
            Event.setBindGroup 0 (some inp.globalBindGroup) sh.gpuProgram ::
              Event.allocUniformBindGroup st.nextId ::
                Event.setBindGroup 2 (some st.nextId) sh.gpuProgram :: r.trace) := by
  simp [execute, hne, hsh, hrun]

/-- Claim C1: for a non-empty gpu context (with render data consistent with
it: `instructionSize` within the batch array), `execute` issues exactly
`instructionSize` indexed draw calls, in batch-list order from index 0, the
i-th with `count = batch.size` and `startOffset = batch.start`; batches past
`instructionSize` produce no draw call. -/
theorem execute_draws_match_instructions (inp : ExecInput) (st : AdaptorState) (sh : Shader)
    (hne : inp.gpuBatchesCount ≠ 0) (hsh : effShader st = some sh)
    (hn : inp.instructionSize ≤ st.batches.length) :
    ∃ st2 evs, execute inp st = .ok (st2, evs) ∧
      evs.filter Event.isDraw =
        (st.batches.take inp.instructionSize).map
          (fun b => Event.drawIndexed b.size 1 b.start) ∧
      (evs.filter Event.isDraw).length = inp.instructionSize := by
  obtain ⟨r, hrun, hdraw, -, -, -, -, -⟩ :=
    runBatches_spec sh.gpuProgram inp.instructionSize st.batches (st.nextId + 1) sh.groups1 hn
  refine ⟨_, _, execute_eq inp st sh r hne hsh hrun, ?_, ?_⟩
  · simp [Event.isDraw, hdraw]
  · simp [Event.isDraw, hdraw]
    omega

/-- Concrete instance of `execute_draws_match_instructions`. -/
theorem execute_draws_match_instructions_witness :
    ∃ st2 evs,
      execute ⟨1, 2, 1, 3, 4, 0, 6⟩
          ⟨some ⟨7, 0, [], none, none⟩, none, 0,
            [⟨5, 3, ⟨[], 0⟩, some 11, some 12⟩], 1⟩ =
        .ok (st2, evs) ∧
      evs.filter Event.isDraw = [Event.drawIndexed 3 1 5] ∧
      (evs.filter Event.isDraw).length = 1 :=
  execute_draws_match_instructions _ _ ⟨7, 0, [], none, none⟩ (by decide) rfl (by decide)

/-- Claim C7: in a non-empty `execute` call, the frame-global uniforms bind
group is bound at slot 0 exactly once, the local-uniform binding is obtained
from the uniform-batch allocator exactly once and bound at slot 2 exactly
once, all before the batch loop; the loop events bind no slot other than 1
and never call the allocator. -/
theorem execute_binds_globals_once (inp : ExecInput) (st : AdaptorState) (sh : Shader)
    (hne : inp.gpuBatchesCount ≠ 0) (hsh : effShader st = some sh)
    (hn : inp.instructionSize ≤ st.batches.length) :
    ∃ st2 loopEvs,
      execute inp st = .ok (st2,
        Event.setPipeline inp.geometry sh.gpuProgram inp.layerBlendMode ::
          Event.setGeometry inp.geometry ::
            Event.setBindGroup 0 (some inp.globalBindGroup) sh.gpuProgram ::
              Event.allocUniformBindGroup st.nextId ::
                Event.setBindGroup 2 (some st.nextId) sh.gpuProgram :: loopEvs) ∧
      loopEvs.countP (Event.isBindSlot 0) = 0 ∧
      loopEvs.countP (Event.isBindSlot 2) = 0 ∧
      loopEvs.countP Event.isAllocEvent = 0 := by
  obtain ⟨r, hrun, -, h0, h2, ha, -, -⟩ :=
    runBatches_spec sh.gpuProgram inp.instructionSize st.batches (st.nextId + 1) sh.groups1 hn
  exact ⟨_, r.trace, execute_eq inp st sh r hne hsh hrun, h0, h2, ha⟩

/-- Concrete instance of `execute_binds_globals_once`. -/
theorem execute_binds_globals_once_witness :
    ∃ st2 loopEvs,
      execute ⟨1, 2, 1, 3, 4, 0, 6⟩
          ⟨some ⟨7, 0, [], none, none⟩, none, 0,
            [⟨5, 3, ⟨[], 0⟩, some 11, some 12⟩], 1⟩ =
        .ok (st2,
          Event.setPipeline 2 7 3 ::
            Event.setGeometry 2 ::
              Event.setBindGroup 0 (some 6) 7 ::
                Event.allocUniformBindGroup 1 ::
                  Event.setBindGroup 2 (some 1) 7 :: loopEvs) ∧
      loopEvs.countP (Event.isBindSlot 0) = 0 ∧
      loopEvs.countP (Event.isBindSlot 2) = 0 ∧
      loopEvs.countP Event.isAllocEvent = 0 :=
  execute_binds_globals_once _ _ ⟨7, 0, [], none, none⟩ (by decide) rfl (by decide)

/-- Claim C3: a batch whose `gpuBindGroup` cache is already populated is not
touched by `execute` — no reconstruction of `bindGroup` or `gpuBindGroup`
(the batch object is unchanged, identities included), the slot-1 bind for
that batch is exactly the cached `bindGroup` identity, and texture binding
groups are constructed only for batches whose cache is empty. -/
theorem execute_reuses_cached_bindGroup (inp : ExecInput) (st : AdaptorState) (sh : Shader)
    (i : Nat) (b : Batch)
    (hne : inp.gpuBatchesCount ≠ 0) (hsh : effShader st = some sh)
    (hn : inp.instructionSize ≤ st.batches.length)
    (hi : i < inp.instructionSize) (hb : st.batches[i]? = some b)
    (hg : b.gpuBindGroup.isSome) :
    ∃ st2 evs, execute inp st = .ok (st2, evs) ∧
      st2.batches[i]? = some b ∧
      (evs.filter (Event.isBindSlot 1))[i]? =
        some (Event.setBindGroup 1 b.bindGroup sh.gpuProgram) ∧
      evs.countP Event.isConstructTex =
        (st.batches.take inp.instructionSize).countP
          (fun b2 => b2.gpuBindGroup.isNone) := by
  obtain ⟨r, hrun, -, -, -, -, hct, hidx⟩ :=
    runBatches_spec sh.gpuProgram inp.instructionSize st.batches (st.nextId + 1) sh.groups1 hn
  obtain ⟨hbatch, hbind⟩ := hidx i b hi hb hg
  refine ⟨_, _, execute_eq inp st sh r hne hsh hrun, ?_, ?_, ?_⟩
  · simpa using hbatch
  · simpa [Event.isBindSlot] using hbind
  · simpa [Event.isConstructTex] using hct

/-- Concrete instance of `execute_reuses_cached_bindGroup`. -/
theorem execute_reuses_cached_bindGroup_witness :
    ∃ st2 evs,
      execute ⟨1, 2, 1, 3, 4, 0, 6⟩
          ⟨some ⟨7, 0, [], none, none⟩, none, 0,
            [⟨5, 3, ⟨[], 0⟩, some 11, some 12⟩], 1⟩ =
        .ok (st2, evs) ∧
      st2.batches[0]? = some ⟨5, 3, ⟨[], 0⟩, some 11, some 12⟩ ∧
      (evs.filter (Event.isBindSlot 1))[0]? =
        some (Event.setBindGroup 1 (some 11) 7) ∧
      evs.countP Event.isConstructTex = 0 :=
  execute_reuses_cached_bindGroup _ _ ⟨7, 0, [], none, none⟩ 0
    ⟨5, 3, ⟨[], 0⟩, some 11, some 12⟩ (by decide) rfl (by decide) (by decide) rfl (by decide)

/-- Claim C2: with an empty gpu-context batch list, `execute` returns without
issuing any command and leaves the whole mutable state unchanged. -/
theorem execute_empty_context_noop (inp : ExecInput) (st : AdaptorState)
    (h : inp.gpuBatchesCount = 0) :
    execute inp st = .ok (st, []) := by
  simp [execute, h]

/-- Concrete instance of `execute_empty_context_noop`. -/
theorem execute_empty_context_noop_witness :
    execute ⟨0, 1, 2, 3, 4, 5, 6⟩ ⟨some ⟨7, 0, [], none, none⟩, none, 0, [], 0⟩ =
      .ok (⟨some ⟨7, 0, [], none, none⟩, none, 0, [], 0⟩, []) :=
  execute_empty_context_noop _ _ rfl

/-- Claim C4, counterexample: `execute` on a destroyed adaptor does NOT fail
fast for every input.  Concretely: after `destroy` succeeds on a live adaptor,
an `execute` whose gpu context has zero batches returns normally (the line-66
early-out runs before any shader dereference), silently completing as a
no-op instead of raising an error. -/
theorem destroyed_execute_silent_noop :
    destroy ⟨some ⟨0, 0, [], none, none⟩, none, 0, [], 0⟩ =
      .ok ⟨none, none, 0, [], 0⟩ ∧
    execute ⟨0, 0, 0, 0, 0, 0, 0⟩ ⟨none, none, 0, [], 0⟩ =
      .ok (⟨none, none, 0, [], 0⟩, []) ∧
    execute ⟨0, 0, 0, 0, 0, 0, 0⟩ ⟨none, none, 0, [], 0⟩ ≠ .error () :=
  ⟨rfl, rfl, by simp [execute]⟩

/-- Claim C4, amended: after `destroy` has nulled the adaptor's shader, an
`execute` call on a context without a custom shader fails fast with an
observable error whenever the gpu-context batch list is non-empty; when that
batch list is empty it returns silently as a no-op, issuing no draw call and
changing no state. -/
theorem destroyed_execute_fails_fast_on_nonempty (st0 st : AdaptorState) (inp : ExecInput)
    (hd : destroy st0 = .ok st) (hcs : st.customShader = none) :
    (inp.gpuBatchesCount ≠ 0 → execute inp st = .error ()) ∧
    (inp.gpuBatchesCount = 0 → execute inp st = .ok (st, [])) := by
  have hsh : st.shader = none := by
    cases h0 : st0.shader with
    | none => simp [destroy, h0] at hd
    | some s =>
        simp [destroy, h0] at hd
        subst hd
        rfl
  constructor
  · intro h
    simp [execute, h, effShader, hcs, hsh]
  · intro h
    simp [execute, h]

/-- Concrete instance of `destroyed_execute_fails_fast_on_nonempty`. -/
theorem destroyed_execute_fails_fast_on_nonempty_witness :
    ((⟨1, 0, 0, 0, 0, 0, 0⟩ : ExecInput).gpuBatchesCount ≠ 0 →
      execute ⟨1, 0, 0, 0, 0, 0, 0⟩ ⟨none, none, 0, [], 0⟩ = .error ()) ∧
    ((⟨1, 0, 0, 0, 0, 0, 0⟩ : ExecInput).gpuBatchesCount = 0 →
      execute ⟨1, 0, 0, 0, 0, 0, 0⟩ ⟨none, none, 0, [], 0⟩ =
        .ok (⟨none, none, 0, [], 0⟩, [])) :=
  destroyed_execute_fails_fast_on_nonempty
    ⟨some ⟨0, 0, [], none, none⟩, none, 0, [], 0⟩ _ _ rfl rfl

set_option maxHeartbeats 4000000 in
set_option maxRecDepth 100000 in
/-- Each 8-bit color channel survives the division by 255, the binary64 to
binary32 storage rounding, and the repacking multiplication by 255 exactly. -/
theorem packChannel_unpackChannel : ∀ v, v < 2 ^ 8 → packChannel (unpackChannel v) = v := by
  decide

/-- Claim C8: unpacking any 32-bit packed color value through the color-unpack
collaborator into the 4×f32 uniform target and repacking it yields the value
back exactly — no channel swap and no precision loss in the float conversion
of the 8-bit channels. -/
theorem color32BitToUniform_roundtrip (c : Nat) (hc : c < 2 ^ 32) :
    packColor (color32BitToUniform c) = c := by
  have h0 := packChannel_unpackChannel (c % 2 ^ 8) (Nat.mod_lt _ (by norm_num))
  have h1 := packChannel_unpackChannel (c / 2 ^ 8 % 2 ^ 8) (Nat.mod_lt _ (by norm_num))
  have h2 := packChannel_unpackChannel (c / 2 ^ 16 % 2 ^ 8) (Nat.mod_lt _ (by norm_num))
  have h3 := packChannel_unpackChannel (c / 2 ^ 24 % 2 ^ 8) (Nat.mod_lt _ (by norm_num))
  simp only [packColor, color32BitToUniform, List.getD_cons_zero, List.getD_cons_succ]
  rw [h0, h1, h2, h3]
  simp only [show (2 : Nat) ^ 8 = 256 from rfl, show (2 : Nat) ^ 16 = 65536 from rfl,
    show (2 : Nat) ^ 24 = 16777216 from rfl] at *
  omega

/-- Concrete instance of `color32BitToUniform_roundtrip`. -/
theorem color32BitToUniform_roundtrip_witness :
    packColor (color32BitToUniform 305419896) = 305419896 :=
  color32BitToUniform_roundtrip 305419896 (by norm_num)

/-- Appending a freshly allocated array to the heap leaves every existing
index unchanged. -/
theorem getD_append_lt {α : Type} (l l2 : List α) (d : α) (i : Nat) (h : i < l.length) :
    (l ++ l2).getD i d = l.getD i d := by
  induction l generalizing i with
  | nil => simp at h
  | cons a t ih =>
      cases i with
      | zero => rfl
      | succ i =>
          have h2 : i < t.length := by
            simp at h
            omega
          simpa using ih i h2

/-- A filter whose predicate holds on the whole image of a map is the
identity on that map. -/
theorem filter_map_of_true {α β : Type} (p : β → Bool) (f : α → β) (l : List α)
    (h : ∀ a, p (f a) = true) : (l.map f).filter p = l.map f := by
  induction l with
  | nil => rfl
  | cons a t ih => simp [h, ih]

/-- Claim C5: `Application.init` calls each registered plugin's `init`
exactly once, in registration order, passing the same merged options to each
(after constructing the renderer), and `Application.destroy` calls each
plugin's `destroy` exactly once in the exact reverse of registration order. -/
theorem application_plugin_lifecycle_order (st : AppState) (o : Option Nat)
    (opts sg rd : Nat) (hs : st.stage = some sg) (hr : st.renderer = some rd) :
    (Application.init o st).2 =
      AppEvent.rendererCreate (mergeOptions o) ::
        (pluginsOf st).map (fun p => AppEvent.pluginInit p st.appId (mergeOptions o)) ∧
    ∃ st2, Application.destroy opts st =
      .ok (st2,
        ((pluginsOf st).reverse.map fun p => AppEvent.pluginDestroy p st.appId) ++
          [AppEvent.stageDestroy opts, AppEvent.rendererDestroy opts]) := by
  refine ⟨rfl,
    ⟨{ st with
        arrays := (st.arrays ++ [pluginsOf st]).set st.arrays.length (pluginsOf st).reverse,
        stage := none,
        renderer := none }, ?_⟩⟩
  simp [Application.destroy, hs, hr]

/-- Concrete instance of `application_plugin_lifecycle_order` with plugins
registered as [1, 2, 3]: init runs 1, 2, 3 and destroy runs 3, 2, 1. -/
theorem application_plugin_lifecycle_order_witness :
    (Application.init (some 4) ⟨[[1, 2, 3]], 0, some 0, some 0, 9⟩).2 =
      [AppEvent.rendererCreate 4, AppEvent.pluginInit 1 9 4,
        AppEvent.pluginInit 2 9 4, AppEvent.pluginInit 3 9 4] ∧
    ∃ st2, Application.destroy 5 ⟨[[1, 2, 3]], 0, some 0, some 0, 9⟩ =
      .ok (st2,
        [AppEvent.pluginDestroy 3 9, AppEvent.pluginDestroy 2 9,
          AppEvent.pluginDestroy 1 9, AppEvent.stageDestroy 5,
          AppEvent.rendererDestroy 5]) :=
  application_plugin_lifecycle_order _ (some 4) 5 0 0 rfl rfl

/-- Claim C6: `Application.destroy` performs, in order, the plugin destroy
calls (reverse registration order), then the stage destruction, then the
renderer destruction, and afterwards both the stage and the renderer
references are cleared to the destroyed sentinel. -/
theorem application_destroy_sequence (st : AppState) (opts sg rd : Nat)
    (hs : st.stage = some sg) (hr : st.renderer = some rd) :
    ∃ st2, Application.destroy opts st =
        .ok (st2,
          ((pluginsOf st).reverse.map fun p => AppEvent.pluginDestroy p st.appId) ++
            [AppEvent.stageDestroy opts, AppEvent.rendererDestroy opts]) ∧
      st2.stage = none ∧ st2.renderer = none := by
  refine ⟨{ st with
      arrays := (st.arrays ++ [pluginsOf st]).set st.arrays.length (pluginsOf st).reverse,
      stage := none,
      renderer := none }, ?_, rfl, rfl⟩
  simp [Application.destroy, hs, hr]

/-- Concrete instance of `application_destroy_sequence`. -/
theorem application_destroy_sequence_witness :
    ∃ st2, Application.destroy 5 ⟨[[1, 2, 3]], 0, some 0, some 0, 9⟩ =
        .ok (st2,
          [AppEvent.pluginDestroy 3 9, AppEvent.pluginDestroy 2 9,
            AppEvent.pluginDestroy 1 9, AppEvent.stageDestroy 5,
            AppEvent.rendererDestroy 5]) ∧
      st2.stage = none ∧ st2.renderer = none :=
  application_destroy_sequence _ 5 0 0 rfl rfl

/-- Claim C9: `Application.destroy` never mutates the static plugin registry:
it reverses a freshly allocated copy, so afterwards `Application._plugins`
still holds the same elements in the same registration order. -/
theorem application_destroy_preserves_registry (st st2 : AppState) (opts : Nat)
    (evs : List AppEvent) (href : st.pluginsRef < st.arrays.length)
    (hd : Application.destroy opts st = .ok (st2, evs)) :
    st2.pluginsRef = st.pluginsRef ∧ pluginsOf st2 = pluginsOf st := by
  cases hs : st.stage with
  | none => simp [Application.destroy, hs] at hd
  | some sg =>
      cases hr : st.renderer with
      | none => simp [Application.destroy, hs, hr] at hd
      | some rd =>
          simp [Application.destroy, hs, hr] at hd
          obtain ⟨hst2, -⟩ := hd
          subst hst2
          refine ⟨rfl, ?_⟩
          show (st.arrays ++ [(pluginsOf st).reverse]).getD st.pluginsRef [] =
            st.arrays.getD st.pluginsRef []
          exact getD_append_lt st.arrays _ _ _ href

/-- Concrete instance of `application_destroy_preserves_registry`. -/
theorem application_destroy_preserves_registry_witness :
    (⟨[[1, 2, 3], [3, 2, 1]], 0, none, none, 9⟩ : AppState).pluginsRef =
      (⟨[[1, 2, 3]], 0, some 0, some 0, 9⟩ : AppState).pluginsRef ∧
    pluginsOf ⟨[[1, 2, 3], [3, 2, 1]], 0, none, none, 9⟩ =
      pluginsOf ⟨[[1, 2, 3]], 0, some 0, some 0, 9⟩ :=
  application_destroy_preserves_registry _ _ 5
    [AppEvent.pluginDestroy 3 9, AppEvent.pluginDestroy 2 9, AppEvent.pluginDestroy 1 9,
      AppEvent.stageDestroy 5, AppEvent.rendererDestroy 5]
    (by decide) rfl

/-- Claim C10: every plugin lifecycle call is scoped to the application
instance: each plugin-init event of `Application.init` carries this
application's identity as receiver and the merged options (user options over
defaults) as its only argument, and each plugin-destroy event of
`Application.destroy` carries the same application identity as receiver. -/
theorem application_plugin_calls_scoped (st st2 : AppState) (o : Option Nat)
    (opts : Nat) (evs : List AppEvent)
    (hd : Application.destroy opts st = .ok (st2, evs)) :
    (Application.init o st).2.filter AppEvent.isPluginInit =
      (pluginsOf st).map (fun p => AppEvent.pluginInit p st.appId (mergeOptions o)) ∧
    evs.filter AppEvent.isPluginDestroy =
      (pluginsOf st).reverse.map (fun p => AppEvent.pluginDestroy p st.appId) := by
  constructor
  · exact filter_map_of_true AppEvent.isPluginInit
      (fun p => AppEvent.pluginInit p st.appId (mergeOptions o)) (pluginsOf st)
      (fun a => rfl)
  · cases hs : st.stage with
    | none => simp [Application.destroy, hs] at hd
    | some sg =>
        cases hr : st.renderer with
        | none => simp [Application.destroy, hs, hr] at hd
        | some rd =>
            simp [Application.destroy, hs, hr] at hd
            obtain ⟨-, hevs⟩ := hd
            subst hevs
            have h2 := filter_map_of_true AppEvent.isPluginDestroy
              (fun p => AppEvent.pluginDestroy p st.appId) (pluginsOf st).reverse
              (fun a => rfl)
            simp only [List.map_reverse] at h2 ⊢
            rw [List.filter_append, h2]
            simp [AppEvent.isPluginDestroy]

/-- Concrete instance of `application_plugin_calls_scoped`. -/
theorem application_plugin_calls_scoped_witness :
    (Application.init (some 4) ⟨[[1, 2, 3]], 0, some 0, some 0, 9⟩).2.filter
        AppEvent.isPluginInit =
      [AppEvent.pluginInit 1 9 4, AppEvent.pluginInit 2 9 4, AppEvent.pluginInit 3 9 4] ∧
    ([AppEvent.pluginDestroy 3 9, AppEvent.pluginDestroy 2 9, AppEvent.pluginDestroy 1 9,
        AppEvent.stageDestroy 5, AppEvent.rendererDestroy 5] : List AppEvent).filter
        AppEvent.isPluginDestroy =
      [AppEvent.pluginDestroy 3 9, AppEvent.pluginDestroy 2 9, AppEvent.pluginDestroy 1 9] :=
  application_plugin_calls_scoped _ _ (some 4) 5 _ rfl

end PixiSpec
